import Mathlib

/-!
# Verification of the cat-image backup workflow (`src/main.py`)

Shallow embedding of the single-module Python program that fetches a
captioned cat image from cataas.com and backs it up to Yandex Disk,
writing a local JSON record.

All network interaction is modelled by an environment `Env` that fixes, for
each HTTP call the program can make, the outcome of that call: either a
raised `requests.exceptions.RequestException` (constructor `netErr`) or a
response.  A `response.json()` call that fails to decode raises
`requests.exceptions.JSONDecodeError`, which is a subclass of
`RequestException` and is caught by the same `except` clause as a network
error, with identical observable behaviour (the HTTP request was already
issued, the handler prints the same message and returns the same value);
it is therefore folded into `netErr` of the corresponding call.

Each Python method becomes a pure function from its arguments and the
environment to a pair of (the list of observable effects it performs, its
return value).  Effects record every HTTP request, every file write, and
every `print`.  The local file system is an association list from file
names to contents; writing prepends, and lookup takes the most recent
binding, which models overwriting.
-/

/-- Byte strings (`bytes` in Python) as lists of byte values. -/
def Bytes := List Nat
deriving DecidableEq

/-- Outcome of one `requests` call: either a raised
`RequestException` (including a `JSONDecodeError` from `.json()`, see the
module docstring) or a completed response carrying the data the program
reads from it. -/
inductive Fetch (α : Type) where
  | netErr : Fetch α
  | ok : α → Fetch α
deriving DecidableEq

/-- The environment fixes the outcome of every HTTP call the program can
make during one run, the success of the local file write, and the values
of the two `datetime.now().isoformat()` calls. -/
structure Env where
  /-- `requests.put(f"{base}?path={folder_name}")` in `create_folder`:
  the response status code. -/
  folderResp : Fetch Nat
  /-- `requests.get(url, timeout=10)` in `get_cat_image`: status code and
  body bytes (`response.content`). -/
  imageResp : Fetch (Nat × Bytes)
  /-- `requests.get(f"{base}/upload?path=...")` in `upload_to_yandex`,
  combined with `upload_response.json()`: the value of the `href` field of
  the decoded body, `none` when the field is absent. -/
  uploadUrlResp : Fetch (Option String)
  /-- `requests.put(upload_url, data=image_content)`: the status code. -/
  putResp : Fetch Nat
  /-- `requests.get(f"{base}?path=...")` metadata query, combined with
  `file_info_response.json()`: status code, the optional `size` field and
  the optional `path` field of the decoded body. -/
  infoResp : Fetch (Nat × Option Nat × Option String)
  /-- Whether `open(filename, "w")` / `json.dump` in `save_to_json`
  succeeds; `false` models any `Exception` raised there. -/
  writeOk : Bool
  /-- `datetime.now().isoformat()` evaluated inside `upload_to_yandex`. -/
  nowUpload : String
  /-- `datetime.now().isoformat()` evaluated inside `backup_cats`. -/
  nowBackup : String
deriving DecidableEq

/-- The distinct human-readable messages the program prints, one
constructor per `print` site in `src/main.py`, carrying the interpolated
values. -/
inductive Msg where
  | startBackup (text : String)
  | folderReady (name : String)
  | folderStatusError (status : Nat)
  | folderExnError
  | gettingImage
  | imageExnError
  | imageFailed
  | uploading
  | uploadNoHref
  | uploadFileError (status : Nat)
  | uploadExnError
  | savedJson (filename : String)
  | saveJsonError
  | successDone
  | sizeReport (n : Nat)
  | failDone
  | header
  | fieldsError
deriving DecidableEq

/-- Observable effects of a run: each HTTP request issued, each local file
write, and each `print` to standard output. -/
inductive Effect where
  | netPutFolder (url : String)
  | netGetImage (url : String)
  | netGetUploadUrl (url : String)
  | netPutBytes (url : String) (data : Bytes)
  | netGetInfo (url : String)
  | fileWrite (name : String) (content : String)
  | print (msg : Msg)
deriving DecidableEq

/-- `True` exactly for network calls and file writes, the effects the
error-handling claims quantify over; `print` is excluded. -/
def Effect.isNetOrFile : Effect → Bool
  | .print _ => false
  | _ => true

/-- The local file system: an association list from file names to textual
contents, most recent binding first. -/
def FS := List (String × String)
deriving DecidableEq

/-- Writing a file prepends the new binding (overwrite). -/
def fsWrite (fs : FS) (name content : String) : FS :=
  (name, content) :: fs

/-- Reading a file returns the most recent binding, if any. -/
def fsRead (fs : FS) (name : String) : Option String :=
  (List.find? (fun p => p.1 = name) fs).map (fun p => p.2)

/-- `self.yandex_base_url` from `CatBackup.__init__`. -/
def yandex_base_url : String := "https://cloud-api.yandex.net/v1/disk/resources"

/-- The remote path `f"{folder_name}/{file_name}.jpg"` used by both the
upload request and the metadata query in `upload_to_yandex`. -/
def remote_path (folder_name file_name : String) : String :=
  folder_name ++ "/" ++ file_name ++ ".jpg"

/-- The structured dict returned by a successful `upload_to_yandex`. -/
structure FileInfoRec where
  file_name : String
  size : Nat
  created : String
  path : String
deriving DecidableEq

/-- The `backup_data` dict assembled by `backup_cats` (the contents of the
`"backup_info"` key). -/
structure BackupData where
  timestamp : String
  text : String
  group_name : String
  files : List FileInfoRec
deriving DecidableEq

/-- JSON string escaping for the two characters `json.dump` always
escapes in text fields (`ensure_ascii=False` keeps everything else). -/
def jsonEscape (s : String) : String :=
  String.mk (s.toList.foldr
    (fun c acc =>
      if c = '\\' then '\\' :: '\\' :: acc
      else if c = '"' then '\\' :: '"' :: acc
      else c :: acc) [])

/-- Render a JSON string literal. -/
def jsonStr (s : String) : String := "\"" ++ jsonEscape s ++ "\""

/-- Serialization of one uploaded-file entry, mirroring the dict built in
`upload_to_yandex`.  Whitespace of `json.dump(..., indent=2)` is not
reproduced; the rendering is an injective function of the record, which is
all the claims depend on. -/
def serializeFileInfo (fi : FileInfoRec) : String :=
  "\x7b" ++ jsonStr "file_name" ++ ": " ++ jsonStr fi.file_name ++
  ", " ++ jsonStr "size" ++ ": " ++ toString fi.size ++
  ", " ++ jsonStr "created" ++ ": " ++ jsonStr fi.created ++
  ", " ++ jsonStr "path" ++ ": " ++ jsonStr fi.path ++ "\x7d"

/-- Serialization of the whole `backup_data` document written by
`save_to_json`. -/
def serialize (data : BackupData) : String :=
  "\x7b" ++ jsonStr "backup_info" ++ ": \x7b" ++
  jsonStr "timestamp" ++ ": " ++ jsonStr data.timestamp ++
  ", " ++ jsonStr "text" ++ ": " ++ jsonStr data.text ++
  ", " ++ jsonStr "group_name" ++ ": " ++ jsonStr data.group_name ++
  ", " ++ jsonStr "files" ++ ": [" ++
  String.intercalate ", " (data.files.map serializeFileInfo) ++ "]\x7d\x7d"

/-- `CatBackup.get_cat_image`: GET the captioned image;
`raise_for_status()` raises exactly for status codes in `[400, 600)`, and
the handler catches it (and any network error), prints, and returns
`None`; otherwise the body bytes are returned. -/
def get_cat_image (text : String) (env : Env) : List Effect × Option Bytes :=
  let url := "https://cataas.com/cat/says/" ++ text
  match env.imageResp with
  | .netErr => ([.netGetImage url, .print .imageExnError], none)
  | .ok (status, content) =>
    if 400 ≤ status ∧ status < 600 then
      ([.netGetImage url, .print .imageExnError], none)
    else
      ([.netGetImage url], some content)

/-- `CatBackup.create_folder`: PUT the folder-creation request; statuses
201 and 409 are success, everything else (and any network error) is
failure. -/
def create_folder (folder_name : String) (env : Env) : List Effect × Bool :=
  let url := yandex_base_url ++ "?path=" ++ folder_name
  match env.folderResp with
  | .netErr => ([.netPutFolder url, .print .folderExnError], false)
  | .ok status =>
    if status = 201 ∨ status = 409 then
      ([.netPutFolder url, .print (.folderReady folder_name)], true)
    else
      ([.netPutFolder url, .print (.folderStatusError status)], false)

/-- `CatBackup.upload_to_yandex`: request a write-target URL (only the
presence of `href` in the decoded body is checked, never the status), PUT
the bytes there, and on status 201 GET the stored object's metadata; on
status 200 the file-info dict is returned, otherwise the put status is
reported and `None` returned; any raised `RequestException` is caught,
printed and yields `None`. -/
def upload_to_yandex (folder_name file_name : String) (image_content : Bytes)
    (env : Env) : List Effect × Option FileInfoRec :=
  let upUrl := yandex_base_url ++ "/upload?path=" ++
    remote_path folder_name file_name ++ "&overwrite=true"
  let infoUrl := yandex_base_url ++ "?path=" ++ remote_path folder_name file_name
  match env.uploadUrlResp with
  | .netErr => ([.netGetUploadUrl upUrl, .print .uploadExnError], none)
  | .ok hrefField =>
    match hrefField with
    | none => ([.netGetUploadUrl upUrl, .print .uploadNoHref], none)
    | some href =>
      match env.putResp with
      | .netErr =>
        ([.netGetUploadUrl upUrl, .netPutBytes href image_content,
          .print .uploadExnError], none)
      | .ok putStatus =>
        if putStatus = 201 then
          match env.infoResp with
          | .netErr =>
            ([.netGetUploadUrl upUrl, .netPutBytes href image_content,
              .netGetInfo infoUrl, .print .uploadExnError], none)
          | .ok (infoStatus, sizeField, pathField) =>
            if infoStatus = 200 then
              ([.netGetUploadUrl upUrl, .netPutBytes href image_content,
                .netGetInfo infoUrl],
               some { file_name := file_name ++ ".jpg",
                      size := sizeField.getD 0,
                      created := env.nowUpload,
                      path := pathField.getD "" })
            else
              ([.netGetUploadUrl upUrl, .netPutBytes href image_content,
                .netGetInfo infoUrl, .print (.uploadFileError putStatus)], none)
        else
          ([.netGetUploadUrl upUrl, .netPutBytes href image_content,
            .print (.uploadFileError putStatus)], none)

/-- The default `filename` argument of `save_to_json`. -/
def backup_info_filename : String := "backup_info.json"

/-- `CatBackup.save_to_json`: serialize the record and write it over the
named file; any exception is caught and printed, leaving the file system
unchanged. -/
def save_to_json (data : BackupData) (filename : String) (env : Env)
    (fs : FS) : List Effect × FS :=
  if env.writeOk then
    ([.fileWrite filename (serialize data), .print (.savedJson filename)],
     fsWrite fs filename (serialize data))
  else
    ([.print .saveJsonError], fs)

/-- `CatBackup.backup_cats`: the four-step run.  It stops after a failed
folder creation; after a fetch returning `None` or empty bytes (`if not
image_content`); and after a failed upload.  On upload success it writes
the JSON record and prints the success report and the size, even when
`save_to_json` failed. -/
def backup_cats (text group_name : String) (env : Env) (fs : FS) :
    List Effect × FS :=
  let start := [Effect.print (.startBackup text)]
  let folderTrace := (create_folder group_name env).1
  if (create_folder group_name env).2 = false then
    (start ++ folderTrace, fs)
  else
    let imgTrace := (get_cat_image text env).1
    match (get_cat_image text env).2 with
    | none =>
      (start ++ folderTrace ++ [.print .gettingImage] ++ imgTrace ++
       [.print .imageFailed], fs)
    | some image_content =>
      if image_content = ([] : List Nat) then
        (start ++ folderTrace ++ [.print .gettingImage] ++ imgTrace ++
         [.print .imageFailed], fs)
      else
        let upTrace := (upload_to_yandex group_name text image_content env).1
        match (upload_to_yandex group_name text image_content env).2 with
        | some file_info =>
          let backup_data : BackupData :=
            { timestamp := env.nowBackup, text := text,
              group_name := group_name, files := [file_info] }
          let saveTrace := (save_to_json backup_data backup_info_filename env fs).1
          (start ++ folderTrace ++ [.print .gettingImage] ++ imgTrace ++
           [.print .uploading] ++ upTrace ++ saveTrace ++
           [.print .successDone, .print (.sizeReport file_info.size)],
           (save_to_json backup_data backup_info_filename env fs).2)
        | none =>
          (start ++ folderTrace ++ [.print .gettingImage] ++ imgTrace ++
           [.print .uploading] ++ upTrace ++ [.print .failDone], fs)

/-- The character set stripped by Python's `str.strip()` on ASCII input. -/
def isPySpace (c : Char) : Bool :=
  c = ' ' ∨ c = '\t' ∨ c = '\n' ∨ c = '\r' ∨ c = '\x0b' ∨ c = '\x0c'

/-- Python `str.strip()`: drop leading and trailing whitespace. -/
def pyStrip (s : String) : String :=
  String.mk (((s.toList.dropWhile isPySpace).reverse.dropWhile isPySpace).reverse)

/-- `main`: read the three interactive inputs (passed here as arguments,
already the raw strings the user typed), strip them, refuse empty fields,
otherwise run `backup_cats`.  (Named `main_fn` because Lean reserves the
name `main` for the executable entry point.) -/
def main_fn (text yandex_token group_name : String) (env : Env) (fs : FS) :
    List Effect × FS :=
  let t := pyStrip text
  let tok := pyStrip yandex_token
  let g := pyStrip group_name
  if t = "" ∨ tok = "" ∨ g = "" then
    ([.print .header, .print .fieldsError], fs)
  else
    let run := backup_cats t g env fs
    ([Effect.print .header] ++ run.1, run.2)

/-! ## Derived descriptions of the run, stated from the environment alone -/

/-- URL of the folder-creation PUT. -/
def folderUrl (g : String) : String := yandex_base_url ++ "?path=" ++ g

/-- URL of the image GET. -/
def imageUrl (t : String) : String := "https://cataas.com/cat/says/" ++ t

/-- URL of the write-target request. -/
def uploadUrlOf (g t : String) : String :=
  yandex_base_url ++ "/upload?path=" ++ remote_path g t ++ "&overwrite=true"

/-- URL of the metadata GET. -/
def infoUrlOf (g t : String) : String :=
  yandex_base_url ++ "?path=" ++ remote_path g t

/-- Whether the folder-creation step succeeds in `env`. -/
def folderOkB (env : Env) : Bool :=
  match env.folderResp with
  | .netErr => false
  | .ok status => if status = 201 ∨ status = 409 then true else false

/-- The value `get_cat_image` returns in `env`. -/
def imageBytes (env : Env) : Option Bytes :=
  match env.imageResp with
  | .netErr => none
  | .ok (status, content) =>
    if 400 ≤ status ∧ status < 600 then none else some content

/-- Whether the fetch step lets the run continue: a returned body that is
also non-empty (`if not image_content`). -/
def imageOkB (env : Env) : Bool :=
  match imageBytes env with
  | none => false
  | some c => if c = ([] : Bytes) then false else true

/-- Whether the write-target response contains an `href`. -/
def hrefOkB (env : Env) : Bool :=
  match env.uploadUrlResp with
  | .ok (some _) => true
  | _ => false

/-- Whether the PUT of the bytes returned status 201. -/
def putOkB (env : Env) : Bool :=
  match env.putResp with
  | .ok status => if status = 201 then true else false
  | .netErr => false

/-- Whether the metadata GET returned status 200. -/
def infoOkB (env : Env) : Bool :=
  match env.infoResp with
  | .ok (status, _, _) => if status = 200 then true else false
  | .netErr => false

/-- Whether the whole upload step yields a file-info result. -/
def uploadOkB (env : Env) : Bool := hrefOkB env && putOkB env && infoOkB env

/-- Whether every network-touching step of the run succeeds. -/
def netOkB (env : Env) : Bool := folderOkB env && imageOkB env && uploadOkB env

/-- Whether the whole run, the local JSON write included, succeeds. -/
def runOkB (env : Env) : Bool := netOkB env && env.writeOk

/-- The `href` the successful write-target response carries. -/
def envHref (env : Env) : String :=
  match env.uploadUrlResp with
  | .ok (some h) => h
  | _ => ""

/-- The image bytes the run uploads (empty when the fetch failed). -/
def envContent (env : Env) : Bytes := (imageBytes env).getD []

/-- The `size` field of the metadata response, when present. -/
def envInfoSize (env : Env) : Option Nat :=
  match env.infoResp with
  | .ok (_, s, _) => s
  | .netErr => none

/-- The `path` field of the metadata response, when present. -/
def envInfoPath (env : Env) : Option String :=
  match env.infoResp with
  | .ok (_, _, p) => p
  | .netErr => none

/-- The file-info dict a successful upload produces, computed from the
environment. -/
def expectedFileInfo (file_name : String) (env : Env) : FileInfoRec :=
  { file_name := file_name ++ ".jpg",
    size := (envInfoSize env).getD 0,
    created := env.nowUpload,
    path := (envInfoPath env).getD "" }

/-- The value `upload_to_yandex` returns in `env`. -/
def uploadResult (file_name : String) (env : Env) : Option FileInfoRec :=
  if uploadOkB env then some (expectedFileInfo file_name env) else none

/-- The `backup_data` record a successful run persists. -/
def expectedRecord (text group_name : String) (env : Env) : BackupData :=
  { timestamp := env.nowBackup, text := text, group_name := group_name,
    files := [expectedFileInfo text env] }

/-- The full sequence of network calls and file writes an entirely
successful run performs, in order. -/
def fullSeq (text group_name : String) (env : Env) : List Effect :=
  [.netPutFolder (folderUrl group_name),
   .netGetImage (imageUrl text),
   .netGetUploadUrl (uploadUrlOf group_name text),
   .netPutBytes (envHref env) (envContent env),
   .netGetInfo (infoUrlOf group_name text),
   .fileWrite backup_info_filename (serialize (expectedRecord text group_name env))]

/-- How many of the six network/file-write operations of `fullSeq` the run
performs in `env` before stopping. -/
def stepCount (env : Env) : Nat :=
  if !folderOkB env then 1
  else if !imageOkB env then 2
  else if !hrefOkB env then 3
  else if !putOkB env then 4
  else if !infoOkB env then 5
  else if !env.writeOk then 5
  else 6

/-- `True` exactly for the file-write effect. -/
def Effect.isFileWrite : Effect → Bool
  | .fileWrite _ _ => true
  | _ => false

/-- `True` for the effects of the upload step and the record write: the
operations a halted run must not perform. -/
def Effect.isUploadPhase : Effect → Bool
  | .netGetUploadUrl _ => true
  | .netPutBytes _ _ => true
  | .netGetInfo _ => true
  | .fileWrite _ _ => true
  | _ => false

/-- The messages that report a caught failure. -/
def Msg.isErrorMsg : Msg → Bool
  | .folderStatusError _ => true
  | .folderExnError => true
  | .imageExnError => true
  | .imageFailed => true
  | .uploadNoHref => true
  | .uploadFileError _ => true
  | .uploadExnError => true
  | .saveJsonError => true
  | .fieldsError => true
  | _ => false

/-- The message `create_folder` prints in `env`. -/
def folderMsg (g : String) (env : Env) : Msg :=
  match env.folderResp with
  | .netErr => .folderExnError
  | .ok s => if s = 201 ∨ s = 409 then .folderReady g else .folderStatusError s

/-- The effect trace of `get_cat_image` in `env`. -/
def imageTrace (t : String) (env : Env) : List Effect :=
  match env.imageResp with
  | .netErr => [.netGetImage (imageUrl t), .print .imageExnError]
  | .ok (s, _) =>
    if 400 ≤ s ∧ s < 600 then [.netGetImage (imageUrl t), .print .imageExnError]
    else [.netGetImage (imageUrl t)]

/-- The effect trace of `upload_to_yandex` in `env`. -/
def uploadTrace (g t : String) (c : Bytes) (env : Env) : List Effect :=
  match env.uploadUrlResp with
  | .netErr => [.netGetUploadUrl (uploadUrlOf g t), .print .uploadExnError]
  | .ok none => [.netGetUploadUrl (uploadUrlOf g t), .print .uploadNoHref]
  | .ok (some href) =>
    match env.putResp with
    | .netErr =>
      [.netGetUploadUrl (uploadUrlOf g t), .netPutBytes href c,
       .print .uploadExnError]
    | .ok ps =>
      if ps = 201 then
        match env.infoResp with
        | .netErr =>
          [.netGetUploadUrl (uploadUrlOf g t), .netPutBytes href c,
           .netGetInfo (infoUrlOf g t), .print .uploadExnError]
        | .ok (is, _, _) =>
          if is = 200 then
            [.netGetUploadUrl (uploadUrlOf g t), .netPutBytes href c,
             .netGetInfo (infoUrlOf g t)]
          else
            [.netGetUploadUrl (uploadUrlOf g t), .netPutBytes href c,
             .netGetInfo (infoUrlOf g t), .print (.uploadFileError ps)]
      else
        [.netGetUploadUrl (uploadUrlOf g t), .netPutBytes href c,
         .print (.uploadFileError ps)]

/-- The effect trace of `save_to_json` in `env`. -/
def saveTraceSpec (d : BackupData) (f : String) (env : Env) : List Effect :=
  if env.writeOk then
    [.fileWrite f (serialize d), .print (.savedJson f)]
  else
    [.print .saveJsonError]

/-- The complete effect trace of `backup_cats`, computed from the
environment alone. -/
def runTrace (t g : String) (env : Env) : List Effect :=
  [Effect.print (.startBackup t)] ++
  [Effect.netPutFolder (folderUrl g), Effect.print (folderMsg g env)] ++
  (if folderOkB env = false then [] else
    [Effect.print .gettingImage] ++ imageTrace t env ++
    (if imageOkB env = false then [Effect.print .imageFailed] else
      [Effect.print .uploading] ++ uploadTrace g t (envContent env) env ++
      (if uploadOkB env = false then [Effect.print .failDone] else
        saveTraceSpec (expectedRecord t g env) backup_info_filename env ++
        [Effect.print .successDone,
         Effect.print (.sizeReport ((envInfoSize env).getD 0))])))

/-- The final file system after `backup_cats`. -/
def runFS (t g : String) (env : Env) (fs : FS) : FS :=
  if runOkB env then
    fsWrite fs backup_info_filename (serialize (expectedRecord t g env))
  else fs

/-! ## Concrete environments used by witnesses and counterexamples -/

/-- An environment in which every step succeeds; the provider reports the
true byte count (3) of the uploaded content. -/
def envAllOk : Env :=
  { folderResp := .ok 201,
    imageResp := .ok (200, ([10, 20, 30] : List Nat)),
    uploadUrlResp := .ok (some "https://uploader.disk.example/u1"),
    putResp := .ok 201,
    infoResp := .ok (200, some 3, some "disk:/grp/cat.jpg"),
    writeOk := true,
    nowUpload := "2026-10-12T10:00:00",
    nowBackup := "2026-10-12T10:00:01" }

/-- Like `envAllOk`, but the provider's metadata reports size 7 for the
3-byte upload. -/
def envSizeMismatch : Env :=
  { envAllOk with infoResp := .ok (200, some 7, some "disk:/grp/cat.jpg") }

/-- Like `envAllOk`, but the image fetch completes with status 304 (a
non-2xx status that `raise_for_status` does not raise on) and a one-byte
body. -/
def envRedirect : Env :=
  { envAllOk with imageResp := .ok (304, ([7] : List Nat)) }

/-- Like `envAllOk`, but the local JSON write raises. -/
def envSaveFails : Env :=
  { envAllOk with writeOk := false }

/-- Like `envAllOk`, but the image fetch raises a network error. -/
def envImageErr : Env :=
  { envAllOk with imageResp := .netErr }

/-- Like `envAllOk`, but the image fetch returns status 200 with an empty
body. -/
def envEmptyImage : Env :=
  { envAllOk with imageResp := .ok (200, ([] : List Nat)) }

/-- A sample record for the `save_to_json` witness. -/
def dataW : BackupData :=
  { timestamp := "2026-10-12T09:00:00", text := "hello",
    group_name := "grp",
    files := [{ file_name := "hello.jpg", size := 5,
                created := "2026-10-12T09:00:00", path := "disk:/grp/hello.jpg" }] }

/-- A prior file system holding stale content under the record's name. -/
def fsOld : FS := [(backup_info_filename, "stale"), ("other.txt", "keep")]

/-! ## Stage lemmas: each method's return value and effect trace -/

theorem create_folder_snd (g : String) (env : Env) :
    (create_folder g env).2 = folderOkB env := by
  unfold create_folder folderOkB
  cases env.folderResp with
  | netErr => rfl
  | ok s => by_cases h : s = 201 ∨ s = 409 <;> simp [h]

theorem get_cat_image_snd (t : String) (env : Env) :
    (get_cat_image t env).2 = imageBytes env := by
  unfold get_cat_image imageBytes
  cases env.imageResp with
  | netErr => rfl
  | ok sc =>
    obtain ⟨s, c⟩ := sc
    by_cases h : 400 ≤ s ∧ s < 600 <;> simp [h]

theorem upload_to_yandex_snd (g t : String) (c : Bytes) (env : Env) :
    (upload_to_yandex g t c env).2 = uploadResult t env := by
  unfold upload_to_yandex uploadResult uploadOkB hrefOkB putOkB infoOkB
    expectedFileInfo envInfoSize envInfoPath
  cases env.uploadUrlResp with
  | netErr => rfl
  | ok hrefField =>
    cases hrefField with
    | none => rfl
    | some href =>
      cases env.putResp with
      | netErr => rfl
      | ok ps =>
        by_cases hp : ps = 201
        · cases env.infoResp with
          | netErr => simp [hp]
          | ok ssp =>
            obtain ⟨is, sz, pth⟩ := ssp
            by_cases hi : is = 200 <;> simp [hp, hi]
        · simp [hp]

theorem create_folder_io (g : String) (env : Env) :
    (create_folder g env).1.filter Effect.isNetOrFile =
      [Effect.netPutFolder (folderUrl g)] := by
  unfold create_folder folderUrl
  cases env.folderResp with
  | netErr => rfl
  | ok s =>
    by_cases h : s = 201 ∨ s = 409 <;> simp [h, List.filter, Effect.isNetOrFile]

theorem get_cat_image_io (t : String) (env : Env) :
    (get_cat_image t env).1.filter Effect.isNetOrFile =
      [Effect.netGetImage (imageUrl t)] := by
  unfold get_cat_image imageUrl
  cases env.imageResp with
  | netErr => rfl
  | ok sc =>
    obtain ⟨s, c⟩ := sc
    by_cases h : 400 ≤ s ∧ s < 600 <;> simp [h, List.filter, Effect.isNetOrFile]

theorem upload_to_yandex_io (g t : String) (c : Bytes) (env : Env) :
    (upload_to_yandex g t c env).1.filter Effect.isNetOrFile =
      (if !hrefOkB env then [Effect.netGetUploadUrl (uploadUrlOf g t)]
       else if !putOkB env then
         [Effect.netGetUploadUrl (uploadUrlOf g t),
          Effect.netPutBytes (envHref env) c]
       else
         [Effect.netGetUploadUrl (uploadUrlOf g t),
          Effect.netPutBytes (envHref env) c,
          Effect.netGetInfo (infoUrlOf g t)]) := by
  unfold upload_to_yandex uploadUrlOf infoUrlOf hrefOkB putOkB envHref
  cases env.uploadUrlResp with
  | netErr => rfl
  | ok hrefField =>
    cases hrefField with
    | none => rfl
    | some href =>
      cases env.putResp with
      | netErr => simp [List.filter, Effect.isNetOrFile]
      | ok ps =>
        by_cases hp : ps = 201
        · cases env.infoResp with
          | netErr => simp [hp, List.filter, Effect.isNetOrFile]
          | ok ssp =>
            obtain ⟨is, sz, pth⟩ := ssp
            by_cases hi : is = 200 <;> simp [hp, hi, List.filter, Effect.isNetOrFile]
        · simp [hp, List.filter, Effect.isNetOrFile]

theorem save_to_json_io (d : BackupData) (f : String) (env : Env) (fs : FS) :
    (save_to_json d f env fs).1.filter Effect.isNetOrFile =
      (if env.writeOk then [Effect.fileWrite f (serialize d)] else []) := by
  unfold save_to_json
  cases env.writeOk <;> simp [List.filter, Effect.isNetOrFile]

theorem save_to_json_snd (d : BackupData) (f : String) (env : Env) (fs : FS) :
    (save_to_json d f env fs).2 =
      (if env.writeOk then fsWrite fs f (serialize d) else fs) := by
  unfold save_to_json
  cases env.writeOk <;> simp

/-- C2: the run performs its network calls and file writes in the fixed
order given by `fullSeq`, truncated at the first failing step. -/
theorem backup_step_order (text group_name : String) (env : Env) (fs : FS) :
    (backup_cats text group_name env fs).1.filter Effect.isNetOrFile =
      (fullSeq text group_name env).take (stepCount env) := by
  unfold backup_cats
  simp only [create_folder_snd, get_cat_image_snd, upload_to_yandex_snd]
  by_cases h1 : folderOkB env
  · simp only [h1]
    cases himg : imageBytes env with
    | none =>
      simp [stepCount, imageOkB, himg, h1, fullSeq, List.filter_append,
        create_folder_io, get_cat_image_io, List.filter, Effect.isNetOrFile]
    | some c =>
      by_cases hc : c = ([] : Bytes)
      · simp [stepCount, imageOkB, himg, hc, h1, fullSeq, List.filter_append,
          create_folder_io, get_cat_image_io, List.filter, Effect.isNetOrFile]
      · have himgok : imageOkB env = true := by simp [imageOkB, himg, hc]
        have hcontent : envContent env = c := by simp [envContent, himg]
        simp only [hc, if_neg, uploadResult]
        by_cases hup : uploadOkB env
        · have hsplit : (hrefOkB env = true ∧ putOkB env = true) ∧ infoOkB env = true := by
            simpa [uploadOkB] using hup
          have h3 : hrefOkB env = true := hsplit.1.1
          have h4 : putOkB env = true := hsplit.1.2
          have h5 : infoOkB env = true := hsplit.2
          cases hw : env.writeOk
          · simp [hup, stepCount, h1, himgok, h3, h4, h5, hw, hcontent, fullSeq,
              expectedRecord, List.filter_append, create_folder_io, get_cat_image_io,
              upload_to_yandex_io, save_to_json_io, List.filter, Effect.isNetOrFile]
          · simp [hup, stepCount, h1, himgok, h3, h4, h5, hw, hcontent, fullSeq,
              expectedRecord, List.filter_append, create_folder_io, get_cat_image_io,
              upload_to_yandex_io, save_to_json_io, List.filter, Effect.isNetOrFile]
        · by_cases h3 : hrefOkB env
          · by_cases h4 : putOkB env
            · have h5 : infoOkB env = false := by
                cases h5 : infoOkB env
                · rfl
                · exact absurd (by simp [uploadOkB, h3, h4, h5]) hup
              simp [hup, stepCount, h1, himgok, h3, h4, h5, hcontent, fullSeq,
                List.filter_append, create_folder_io, get_cat_image_io,
                upload_to_yandex_io, List.filter, Effect.isNetOrFile]
            · simp [hup, stepCount, h1, himgok, h3, h4, hcontent, fullSeq,
                List.filter_append, create_folder_io, get_cat_image_io,
                upload_to_yandex_io, List.filter, Effect.isNetOrFile]
          · simp [hup, stepCount, h1, himgok, h3, hcontent, fullSeq,
              List.filter_append, create_folder_io, get_cat_image_io,
              upload_to_yandex_io, List.filter, Effect.isNetOrFile]
  · have h1f : folderOkB env = false := by simpa using h1
    simp [h1f, stepCount, fullSeq, List.filter_append, create_folder_io,
      List.filter, Effect.isNetOrFile]

theorem create_folder_fst (g : String) (env : Env) :
    (create_folder g env).1 =
      [Effect.netPutFolder (folderUrl g), Effect.print (folderMsg g env)] := by
  unfold create_folder folderMsg folderUrl
  cases env.folderResp with
  | netErr => rfl
  | ok s => by_cases h : s = 201 ∨ s = 409 <;> simp [h]

theorem get_cat_image_fst (t : String) (env : Env) :
    (get_cat_image t env).1 = imageTrace t env := by
  unfold get_cat_image imageTrace imageUrl
  cases env.imageResp with
  | netErr => rfl
  | ok sc =>
    obtain ⟨s, c⟩ := sc
    by_cases h : 400 ≤ s ∧ s < 600 <;> simp [h]

theorem upload_to_yandex_fst (g t : String) (c : Bytes) (env : Env) :
    (upload_to_yandex g t c env).1 = uploadTrace g t c env := by
  unfold upload_to_yandex uploadTrace uploadUrlOf infoUrlOf
  cases env.uploadUrlResp with
  | netErr => rfl
  | ok hrefField =>
    cases hrefField with
    | none => rfl
    | some href =>
      cases env.putResp with
      | netErr => rfl
      | ok ps =>
        by_cases hp : ps = 201
        · cases env.infoResp with
          | netErr => simp [hp]
          | ok ssp =>
            obtain ⟨is, sz, pth⟩ := ssp
            by_cases hi : is = 200 <;> simp [hp, hi]
        · simp [hp]

theorem save_to_json_fst (d : BackupData) (f : String) (env : Env) (fs : FS) :
    (save_to_json d f env fs).1 = saveTraceSpec d f env := by
  unfold save_to_json saveTraceSpec
  cases env.writeOk <;> rfl

/-- Master lemma: the effect trace of a run is `runTrace`. -/
theorem backup_cats_fst (t g : String) (env : Env) (fs : FS) :
    (backup_cats t g env fs).1 = runTrace t g env := by
  unfold backup_cats runTrace
  simp only [create_folder_snd, get_cat_image_snd, upload_to_yandex_snd,
    create_folder_fst, get_cat_image_fst, upload_to_yandex_fst, save_to_json_fst]
  by_cases h1 : folderOkB env
  · simp only [h1]
    cases himg : imageBytes env with
    | none =>
      have himgf : imageOkB env = false := by simp [imageOkB, himg]
      simp [himgf]
    | some c =>
      by_cases hc : c = ([] : Bytes)
      · have himgf : imageOkB env = false := by simp [imageOkB, himg, hc]
        simp [himgf, hc]
      · have himgok : imageOkB env = true := by simp [imageOkB, himg, hc]
        have hcontent : envContent env = c := by simp [envContent, himg]
        simp only [hc, if_neg, uploadResult, himgok, hcontent]
        by_cases hup : uploadOkB env
        · simp [hup, expectedRecord, expectedFileInfo]
        · have hupf : uploadOkB env = false := by simpa using hup
          simp [hupf]
  · have h1f : folderOkB env = false := by simpa using h1
    simp [h1f]

/-- Master lemma: the final file system of a run is `runFS`. -/
theorem backup_cats_snd (t g : String) (env : Env) (fs : FS) :
    (backup_cats t g env fs).2 = runFS t g env fs := by
  unfold backup_cats runFS runOkB netOkB
  simp only [create_folder_snd, get_cat_image_snd, upload_to_yandex_snd,
    save_to_json_snd]
  by_cases h1 : folderOkB env
  · simp only [h1]
    cases himg : imageBytes env with
    | none =>
      have himgf : imageOkB env = false := by simp [imageOkB, himg]
      simp [himgf]
    | some c =>
      by_cases hc : c = ([] : Bytes)
      · have himgf : imageOkB env = false := by simp [imageOkB, himg, hc]
        simp [himgf, hc]
      · have himgok : imageOkB env = true := by simp [imageOkB, himg, hc]
        simp only [hc, if_neg, uploadResult, himgok]
        by_cases hup : uploadOkB env
        · cases hw : env.writeOk <;>
            simp [hup, hw, h1, himgok, expectedRecord, expectedFileInfo]
        · have hupf : uploadOkB env = false := by simpa using hup
          simp [hupf]
  · have h1f : folderOkB env = false := by simpa using h1
    simp [h1f]

/-! ## Properties of the stage traces -/

theorem imageTrace_no_upload (t : String) (env : Env) :
    ((imageTrace t env).all fun e => !(e.isUploadPhase)) = true := by
  rcases env with ⟨f, i, u, p, inf, w, n1, n2⟩
  unfold imageTrace
  dsimp only
  cases i with
  | netErr => rfl
  | ok sc =>
    obtain ⟨s, c⟩ := sc
    by_cases h : 400 ≤ s ∧ s < 600 <;> simp [h, Effect.isUploadPhase]

theorem imageTrace_count_write (t : String) (env : Env) :
    (imageTrace t env).countP Effect.isFileWrite = 0 := by
  rcases env with ⟨f, i, u, p, inf, w, n1, n2⟩
  unfold imageTrace
  dsimp only
  cases i with
  | netErr => rfl
  | ok sc =>
    obtain ⟨s, c⟩ := sc
    by_cases h : 400 ≤ s ∧ s < 600 <;> simp [h, List.countP, List.countP.go, Effect.isFileWrite]

theorem uploadTrace_count_write (g t : String) (c : Bytes) (env : Env) :
    (uploadTrace g t c env).countP Effect.isFileWrite = 0 := by
  rcases env with ⟨f, i, u, p, inf, w, n1, n2⟩
  unfold uploadTrace
  dsimp only
  cases u with
  | netErr => rfl
  | ok hrefField =>
    cases hrefField with
    | none => rfl
    | some href =>
      cases p with
      | netErr => rfl
      | ok ps =>
        by_cases hp : ps = 201
        · cases inf with
          | netErr => simp [hp, List.countP, List.countP.go, Effect.isFileWrite]
          | ok ssp =>
            obtain ⟨is, sz, pth⟩ := ssp
            by_cases hi : is = 200 <;>
              simp [hp, hi, List.countP, List.countP.go, Effect.isFileWrite]
        · simp [hp, List.countP, List.countP.go, Effect.isFileWrite]

theorem imageTrace_no_success (t : String) (env : Env) :
    Effect.print Msg.successDone ∉ imageTrace t env := by
  rcases env with ⟨f, i, u, p, inf, w, n1, n2⟩
  unfold imageTrace
  dsimp only
  cases i with
  | netErr => simp
  | ok sc =>
    obtain ⟨s, c⟩ := sc
    by_cases h : 400 ≤ s ∧ s < 600 <;> simp [h]

theorem uploadTrace_no_success (g t : String) (c : Bytes) (env : Env) :
    Effect.print Msg.successDone ∉ uploadTrace g t c env := by
  rcases env with ⟨f, i, u, p, inf, w, n1, n2⟩
  unfold uploadTrace
  dsimp only
  cases u with
  | netErr => simp
  | ok hrefField =>
    cases hrefField with
    | none => simp
    | some href =>
      cases p with
      | netErr => simp
      | ok ps =>
        by_cases hp : ps = 201
        · cases inf with
          | netErr => simp [hp]
          | ok ssp =>
            obtain ⟨is, sz, pth⟩ := ssp
            by_cases hi : is = 200 <;> simp [hp, hi]
        · simp [hp]

theorem folderMsg_ne_success (g : String) (env : Env) :
    folderMsg g env ≠ Msg.successDone := by
  unfold folderMsg
  cases env.folderResp with
  | netErr => simp
  | ok s => by_cases h : s = 201 ∨ s = 409 <;> simp [h]

theorem folderMsg_error (g : String) (env : Env) (h : folderOkB env = false) :
    (folderMsg g env).isErrorMsg = true := by
  unfold folderMsg
  unfold folderOkB at h
  cases henv : env.folderResp with
  | netErr => rfl
  | ok s =>
    rw [henv] at h
    by_cases hs : s = 201 ∨ s = 409
    · simp [hs] at h
    · simp [hs, Msg.isErrorMsg]

theorem uploadTrace_error (g t : String) (c : Bytes) (env : Env)
    (h : uploadOkB env = false) :
    ∃ m, Effect.print m ∈ uploadTrace g t c env ∧ m.isErrorMsg = true := by
  rcases env with ⟨f, i, u, p, inf, w, n1, n2⟩
  unfold uploadOkB hrefOkB putOkB infoOkB at h
  unfold uploadTrace
  dsimp only at h ⊢
  cases u with
  | netErr => exact ⟨Msg.uploadExnError, by simp, rfl⟩
  | ok hrefField =>
    cases hrefField with
    | none => exact ⟨Msg.uploadNoHref, by simp, rfl⟩
    | some href =>
      cases p with
      | netErr => exact ⟨Msg.uploadExnError, by simp, rfl⟩
      | ok ps =>
        by_cases hp : ps = 201
        · cases inf with
          | netErr =>
            refine ⟨Msg.uploadExnError, ?_, rfl⟩
            simp [hp]
          | ok ssp =>
            obtain ⟨is, sz, pth⟩ := ssp
            by_cases hi : is = 200
            · simp [hp, hi] at h
            · refine ⟨Msg.uploadFileError ps, ?_, rfl⟩
              simp [hp, hi]
        · refine ⟨Msg.uploadFileError ps, ?_, rfl⟩
          simp [hp]

theorem imageTrace_elems (t : String) (env : Env) :
    ∀ e ∈ imageTrace t env,
      e = Effect.netGetImage (imageUrl t) ∨ ∃ m, e = Effect.print m := by
  rcases env with ⟨f, i, u, p, inf, w, n1, n2⟩
  intro e he
  unfold imageTrace at he
  dsimp only at he
  cases i with
  | netErr =>
    rcases (by simpa using he : _ ∨ _) with h | h
    · exact Or.inl h
    · exact Or.inr ⟨_, h⟩
  | ok sc =>
    obtain ⟨s, c⟩ := sc
    dsimp only at he
    by_cases h : 400 ≤ s ∧ s < 600
    · rw [if_pos h] at he
      rcases (by simpa using he : _ ∨ _) with h2 | h2
      · exact Or.inl h2
      · exact Or.inr ⟨_, h2⟩
    · rw [if_neg h] at he
      exact Or.inl (by simpa using he)

theorem uploadTrace_elems (g t : String) (c : Bytes) (env : Env) :
    ∀ e ∈ uploadTrace g t c env,
      e = Effect.netGetUploadUrl (uploadUrlOf g t) ∨
      (∃ h b, e = Effect.netPutBytes h b) ∨
      e = Effect.netGetInfo (infoUrlOf g t) ∨
      (∃ m, e = Effect.print m) := by
  rcases env with ⟨f, i, u, p, inf, w, n1, n2⟩
  intro e he
  unfold uploadTrace at he
  dsimp only at he
  cases u with
  | netErr =>
    rcases (by simpa using he : _ ∨ _) with h | h
    · exact Or.inl h
    · exact Or.inr (Or.inr (Or.inr ⟨_, h⟩))
  | ok hrefField =>
    cases hrefField with
    | none =>
      rcases (by simpa using he : _ ∨ _) with h | h
      · exact Or.inl h
      · exact Or.inr (Or.inr (Or.inr ⟨_, h⟩))
    | some href =>
      cases p with
      | netErr =>
        rcases (by simpa using he : _ ∨ _ ∨ _) with h | h | h
        · exact Or.inl h
        · exact Or.inr (Or.inl ⟨_, _, h⟩)
        · exact Or.inr (Or.inr (Or.inr ⟨_, h⟩))
      | ok ps =>
        dsimp only at he
        by_cases hp : ps = 201
        · rw [if_pos hp] at he
          cases inf with
          | netErr =>
            rcases (by simpa using he : _ ∨ _ ∨ _ ∨ _) with h | h | h | h
            · exact Or.inl h
            · exact Or.inr (Or.inl ⟨_, _, h⟩)
            · exact Or.inr (Or.inr (Or.inl h))
            · exact Or.inr (Or.inr (Or.inr ⟨_, h⟩))
          | ok ssp =>
            obtain ⟨is, sz, pth⟩ := ssp
            dsimp only at he
            by_cases hi : is = 200
            · rw [if_pos hi] at he
              rcases (by simpa using he : _ ∨ _ ∨ _) with h | h | h
              · exact Or.inl h
              · exact Or.inr (Or.inl ⟨_, _, h⟩)
              · exact Or.inr (Or.inr (Or.inl h))
            · rw [if_neg hi] at he
              rcases (by simpa using he : _ ∨ _ ∨ _ ∨ _) with h | h | h | h
              · exact Or.inl h
              · exact Or.inr (Or.inl ⟨_, _, h⟩)
              · exact Or.inr (Or.inr (Or.inl h))
              · exact Or.inr (Or.inr (Or.inr ⟨_, h⟩))
        · rw [if_neg hp] at he
          rcases (by simpa using he : _ ∨ _ ∨ _) with h | h | h
          · exact Or.inl h
          · exact Or.inr (Or.inl ⟨_, _, h⟩)
          · exact Or.inr (Or.inr (Or.inr ⟨_, h⟩))

/-! ## Claims -/

/-- C3: `create_folder` returns success exactly when the provider's
response status is 201 (created) or 409 (already exists); any other
status, and any raised network error, yields failure. -/
theorem create_folder_success_iff (folder_name : String) (env : Env) :
    (create_folder folder_name env).2 = true ↔
      (∃ s, env.folderResp = Fetch.ok s ∧ (s = 201 ∨ s = 409)) := by
  rw [create_folder_snd]
  unfold folderOkB
  rcases env with ⟨f, i, u, p, inf, w, n1, n2⟩
  dsimp only
  cases f with
  | netErr => simp
  | ok s => by_cases h : s = 201 ∨ s = 409 <;> simp [h]

/-- C5: `upload_to_yandex` yields a file-info result exactly when the
write-URL response contains an `href`, the PUT of the bytes returns 201,
and the metadata GET returns 200; the failure of any one of these steps
yields `none`. -/
theorem upload_result_iff (folder_name file_name : String) (c : Bytes)
    (env : Env) :
    ((upload_to_yandex folder_name file_name c env).2).isSome = true ↔
      ((∃ h, env.uploadUrlResp = Fetch.ok (some h)) ∧
       env.putResp = Fetch.ok 201 ∧
       (∃ sz p, env.infoResp = Fetch.ok (200, sz, p))) := by
  rw [upload_to_yandex_snd]
  unfold uploadResult uploadOkB hrefOkB putOkB infoOkB
  rcases env with ⟨f, i, u, p, inf, w, n1, n2⟩
  dsimp only
  cases u with
  | netErr => simp
  | ok hrefField =>
    cases hrefField with
    | none => simp
    | some href =>
      cases p with
      | netErr => simp
      | ok ps =>
        cases inf with
        | netErr => by_cases hp : ps = 201 <;> simp [hp]
        | ok ssp =>
          obtain ⟨is, sz, pth⟩ := ssp
          by_cases hp : ps = 201 <;> by_cases hi : is = 200 <;> simp [hp, hi]

/-- C7: a successful `save_to_json` leaves the record file holding exactly
the serialization of the record, whatever the prior file system held: the
resulting content is a function of the record alone. -/
theorem save_overwrites_wholesale (data : BackupData) (env : Env)
    (fs1 fs2 : FS) (hw : env.writeOk = true) :
    fsRead (save_to_json data backup_info_filename env fs1).2
        backup_info_filename = some (serialize data) ∧
    fsRead (save_to_json data backup_info_filename env fs1).2
        backup_info_filename =
      fsRead (save_to_json data backup_info_filename env fs2).2
        backup_info_filename := by
  unfold save_to_json fsRead fsWrite
  simp [hw, List.find?]

/-- Witness for C7 at a concrete record and two differing prior file
systems, one of which already holds stale content under the record's
name. -/
theorem save_overwrites_wholesale_witness :
    fsRead (save_to_json dataW backup_info_filename envAllOk fsOld).2
        backup_info_filename = some (serialize dataW) ∧
    fsRead (save_to_json dataW backup_info_filename envAllOk fsOld).2
        backup_info_filename =
      fsRead (save_to_json dataW backup_info_filename envAllOk []).2
        backup_info_filename :=
  save_overwrites_wholesale dataW envAllOk fsOld [] (by decide)

/-- C9: when any of the three interactive inputs is empty after stripping
surrounding whitespace, the program prints the error message and performs
no network call and no file write, leaving the file system unchanged. -/
theorem empty_inputs_no_effects (text yandex_token group_name : String)
    (env : Env) (fs : FS)
    (h : pyStrip text = "" ∨ pyStrip yandex_token = "" ∨
         pyStrip group_name = "") :
    ((main_fn text yandex_token group_name env fs).1.all
        fun e => !(e.isNetOrFile)) = true ∧
    Effect.print Msg.fieldsError ∈
      (main_fn text yandex_token group_name env fs).1 ∧
    (main_fn text yandex_token group_name env fs).2 = fs := by
  unfold main_fn
  simp [h, Effect.isNetOrFile]

/-- Witness for C9: a caption that is all whitespace. -/
theorem empty_inputs_no_effects_witness :
    ((main_fn "   " "token" "grp" envAllOk fsOld).1.all
        fun e => !(e.isNetOrFile)) = true ∧
    Effect.print Msg.fieldsError ∈ (main_fn "   " "token" "grp" envAllOk fsOld).1 ∧
    (main_fn "   " "token" "grp" envAllOk fsOld).2 = fsOld :=
  empty_inputs_no_effects "   " "token" "grp" envAllOk fsOld (Or.inl (by decide))

theorem runTrace_no_upload_of_image_fail (t g : String) (env : Env)
    (himgf : imageOkB env = false) :
    ∀ e ∈ runTrace t g env, e.isUploadPhase = false := by
  intro e he
  unfold runTrace at he
  by_cases h1 : folderOkB env
  · rw [if_neg (by simp [h1])] at he
    rw [if_pos himgf] at he
    simp only [List.mem_append, List.mem_cons, List.not_mem_nil, or_false,
      or_assoc] at he
    rcases he with he | he | he | he | he | he
    · subst he; rfl
    · subst he; rfl
    · subst he; rfl
    · subst he; rfl
    · rcases imageTrace_elems t env e he with h2 | ⟨m, h2⟩ <;> subst h2 <;> rfl
    · subst he; rfl
  · rw [if_pos (by simpa using h1)] at he
    simp only [List.append_nil, List.mem_append, List.mem_cons,
      List.not_mem_nil, or_false, or_assoc] at he
    rcases he with he | he | he
    · subst he; rfl
    · subst he; rfl
    · subst he; rfl

/-- C4 (amended): when the image fetch raises a network error or returns a
status in `[400, 600)` — the statuses `raise_for_status` raises on — the
fetch yields `None`, the run performs no upload-phase operation (no
write-URL request, byte PUT, metadata GET or file write), and the file
system is unchanged.  (The claim's "non-2xx" is too wide: a 3xx status
such as 304 does not halt the run; see the counterexample.) -/
theorem image_fetch_error_halts (text group_name : String) (env : Env)
    (fs : FS)
    (h : env.imageResp = Fetch.netErr ∨
         ∃ s c, env.imageResp = Fetch.ok (s, c) ∧ 400 ≤ s ∧ s < 600) :
    (get_cat_image text env).2 = none ∧
    (∀ e ∈ (backup_cats text group_name env fs).1, e.isUploadPhase = false) ∧
    (backup_cats text group_name env fs).2 = fs := by
  have himg : imageBytes env = none := by
    rcases h with h | ⟨s, c, h, h4, h6⟩
    · simp [imageBytes, h]
    · simp [imageBytes, h, h4, h6]
  have himgf : imageOkB env = false := by simp [imageOkB, himg]
  refine ⟨by rw [get_cat_image_snd]; exact himg, ?_, ?_⟩
  · intro e he
    rw [backup_cats_fst] at he
    exact runTrace_no_upload_of_image_fail text group_name env himgf e he
  · rw [backup_cats_snd]
    unfold runFS
    simp [runOkB, netOkB, himgf]

/-- Witness for C4 (amended): a network error on the image fetch. -/
theorem image_fetch_error_halts_witness :
    (get_cat_image "cat" envImageErr).2 = none ∧
    (∀ e ∈ (backup_cats "cat" "grp" envImageErr fsOld).1,
      e.isUploadPhase = false) ∧
    (backup_cats "cat" "grp" envImageErr fsOld).2 = fsOld :=
  image_fetch_error_halts "cat" "grp" envImageErr fsOld (Or.inl (by decide))

set_option maxRecDepth 100000 in
/-- C4 counterexample: with response status 304 — a non-2xx status —
`raise_for_status` does not raise, the fetch returns the body rather than
`None`, and the run goes on to upload it and write the JSON record. -/
theorem image_redirect_not_halted :
    envRedirect.imageResp = Fetch.ok (304, ([7] : List Nat)) ∧
    ¬(200 ≤ 304 ∧ 304 < 300) ∧
    (get_cat_image "cat" envRedirect).2 = some ([7] : List Nat) ∧
    (backup_cats "cat" "grp" envRedirect []).1.countP Effect.isFileWrite = 1 ∧
    fsRead (backup_cats "cat" "grp" envRedirect []).2 backup_info_filename =
      some (serialize (expectedRecord "cat" "grp" envRedirect)) :=
  ⟨by decide, by decide, by decide, by decide, by rfl⟩

/-- C8: a fetch that completes with a 2xx status but an empty byte body is
treated as a failure by `backup_cats` (`if not image_content`): the run
performs no upload-phase operation and writes no record. -/
theorem empty_image_halts (text group_name : String) (env : Env) (fs : FS)
    (s : Nat) (h : env.imageResp = Fetch.ok (s, ([] : List Nat)))
    (h2 : 200 ≤ s) (h3 : s < 300) :
    (get_cat_image text env).2 = some ([] : List Nat) ∧
    (∀ e ∈ (backup_cats text group_name env fs).1, e.isUploadPhase = false) ∧
    (backup_cats text group_name env fs).2 = fs := by
  have himg : imageBytes env = some ([] : List Nat) := by
    have hns : ¬(400 ≤ s ∧ s < 600) := by omega
    simp [imageBytes, h, hns]
  have himgf : imageOkB env = false := by simp [imageOkB, himg]
  refine ⟨by rw [get_cat_image_snd]; exact himg, ?_, ?_⟩
  · intro e he
    rw [backup_cats_fst] at he
    exact runTrace_no_upload_of_image_fail text group_name env himgf e he
  · rw [backup_cats_snd]
    unfold runFS
    simp [runOkB, netOkB, himgf]

/-- Witness for C8: status 200 with a zero-length body. -/
theorem empty_image_halts_witness :
    (get_cat_image "cat" envEmptyImage).2 = some ([] : List Nat) ∧
    (∀ e ∈ (backup_cats "cat" "grp" envEmptyImage fsOld).1,
      e.isUploadPhase = false) ∧
    (backup_cats "cat" "grp" envEmptyImage fsOld).2 = fsOld :=
  empty_image_halts "cat" "grp" envEmptyImage fsOld 200 (by decide)
    (by decide) (by decide)

/-- C1 (amended): every entirely successful run writes exactly one JSON
record file, holding exactly one file entry; that entry's `size` field
equals the size reported by the provider's metadata response (0 when the
field is absent) — it equals the uploaded byte length only when the
provider reports that length (see the counterexample). -/
theorem backup_success_single_record (text group_name : String) (env : Env)
    (fs : FS) (h : runOkB env = true) :
    (backup_cats text group_name env fs).1.countP Effect.isFileWrite = 1 ∧
    fsRead (backup_cats text group_name env fs).2 backup_info_filename =
      some (serialize (expectedRecord text group_name env)) ∧
    (expectedRecord text group_name env).files =
      [expectedFileInfo text env] ∧
    (expectedFileInfo text env).size = (envInfoSize env).getD 0 := by
  have hparts : netOkB env = true ∧ env.writeOk = true := by
    simpa [runOkB] using h
  have hsub : (folderOkB env = true ∧ imageOkB env = true) ∧
      uploadOkB env = true := by
    simpa [netOkB] using hparts.1
  have h1 := hsub.1.1
  have himg := hsub.1.2
  have hup := hsub.2
  have hw := hparts.2
  rw [backup_cats_fst, backup_cats_snd]
  refine ⟨?_, ?_, rfl, rfl⟩
  · unfold runTrace saveTraceSpec
    rw [if_neg (by simp [h1]), if_neg (by simp [himg]),
      if_neg (by simp [hup]), if_pos hw]
    simp [List.countP_append, imageTrace_count_write, uploadTrace_count_write,
      List.countP_cons, Effect.isFileWrite]
  · unfold runFS
    rw [if_pos h]
    unfold fsRead fsWrite
    simp [List.find?]

set_option maxRecDepth 100000 in
/-- Witness for C1 (amended) at a fully successful concrete environment. -/
theorem backup_success_single_record_witness :
    runOkB envAllOk = true ∧
    ((backup_cats "cat" "grp" envAllOk []).1.countP Effect.isFileWrite = 1 ∧
     fsRead (backup_cats "cat" "grp" envAllOk []).2 backup_info_filename =
       some (serialize (expectedRecord "cat" "grp" envAllOk)) ∧
     (expectedRecord "cat" "grp" envAllOk).files =
       [expectedFileInfo "cat" envAllOk] ∧
     (expectedFileInfo "cat" envAllOk).size =
       (envInfoSize envAllOk).getD 0) :=
  ⟨by decide, backup_success_single_record "cat" "grp" envAllOk [] (by decide)⟩

set_option maxRecDepth 100000 in
/-- C1 counterexample: in `envSizeMismatch` every step succeeds and
exactly one record with one file entry is written, but the entry's `size`
field is the provider-reported 7 while the uploaded content is 3 bytes
long, so the size field does not equal the uploaded byte length. -/
theorem backup_size_mismatch :
    runOkB envSizeMismatch = true ∧
    (backup_cats "cat" "grp" envSizeMismatch []).1.countP
      Effect.isFileWrite = 1 ∧
    fsRead (backup_cats "cat" "grp" envSizeMismatch []).2
        backup_info_filename =
      some (serialize (expectedRecord "cat" "grp" envSizeMismatch)) ∧
    (expectedRecord "cat" "grp" envSizeMismatch).files =
      [expectedFileInfo "cat" envSizeMismatch] ∧
    (expectedFileInfo "cat" envSizeMismatch).size = 7 ∧
    (envContent envSizeMismatch).length = 3 ∧
    (expectedFileInfo "cat" envSizeMismatch).size ≠
      (envContent envSizeMismatch).length :=
  ⟨by decide, by decide, by rfl, by decide, by decide, by decide, by decide⟩

theorem runTrace_no_success_of_net_fail (t g : String) (env : Env)
    (hnet : netOkB env = false) :
    Effect.print Msg.successDone ∉ runTrace t g env := by
  intro hmem
  unfold runTrace at hmem
  by_cases h1 : folderOkB env
  · rw [if_neg (by simp [h1])] at hmem
    by_cases h2 : imageOkB env
    · have hupf : uploadOkB env = false := by
        cases h3 : uploadOkB env
        · rfl
        · simp [netOkB, h1, h2, h3] at hnet
      rw [if_neg (by simp [h2]), if_pos hupf] at hmem
      simp only [List.mem_append, List.mem_cons, List.not_mem_nil, or_false,
        or_assoc] at hmem
      rcases hmem with hmem | hmem | hmem | hmem | hmem | hmem | hmem
      · simp at hmem
      · simp at hmem
      · simp only [Effect.print.injEq] at hmem
        exact folderMsg_ne_success g env hmem.symm
      · simp at hmem
      · exact imageTrace_no_success t env hmem
      · simp at hmem
      · rcases hmem with hmem | hmem
        · exact uploadTrace_no_success g t (envContent env) env hmem
        · simp at hmem
    · rw [if_pos (by simpa using h2)] at hmem
      simp only [List.mem_append, List.mem_cons, List.not_mem_nil, or_false,
        or_assoc] at hmem
      rcases hmem with hmem | hmem | hmem | hmem | hmem
      · simp at hmem
      · simp at hmem
      · simp only [Effect.print.injEq] at hmem
        exact folderMsg_ne_success g env hmem.symm
      · simp at hmem
      · rcases hmem with hmem | hmem
        · exact imageTrace_no_success t env hmem
        · simp at hmem
  · rw [if_pos (by simpa using h1)] at hmem
    simp only [List.append_nil, List.mem_append, List.mem_cons,
      List.not_mem_nil, or_false, or_assoc] at hmem
    rcases hmem with hmem | hmem | hmem
    · simp at hmem
    · simp at hmem
    · simp only [Effect.print.injEq] at hmem
      exact folderMsg_ne_success g env hmem.symm

theorem runTrace_error_of_net_fail (t g : String) (env : Env)
    (hnet : netOkB env = false) :
    ∃ m, Effect.print m ∈ runTrace t g env ∧ m.isErrorMsg = true := by
  unfold runTrace
  by_cases h1 : folderOkB env
  · rw [if_neg (by simp [h1])]
    by_cases h2 : imageOkB env
    · have hupf : uploadOkB env = false := by
        cases h3 : uploadOkB env
        · rfl
        · simp [netOkB, h1, h2, h3] at hnet
      rw [if_neg (by simp [h2]), if_pos hupf]
      obtain ⟨m, hm, herr⟩ := uploadTrace_error g t (envContent env) env hupf
      exact ⟨m, by simp [hm], herr⟩
    · rw [if_pos (by simpa using h2)]
      exact ⟨Msg.imageFailed, by simp, rfl⟩
  · rw [if_pos (by simpa using h1)]
    have h1f : folderOkB env = false := by simpa using h1
    exact ⟨folderMsg g env, by simp, folderMsg_error g env h1f⟩

/-- C6 (amended): a failure in folder creation, image fetch or upload is
caught, logged as an error message, prevents the success report and leaves
the file system unchanged; a failure of the JSON write is caught and
logged and leaves the file system unchanged, but the run still prints the
success report afterwards (see the counterexample). -/
theorem failure_logged_and_halts (text group_name : String) (env : Env)
    (fs : FS) :
    (netOkB env = false →
      Effect.print Msg.successDone ∉ (backup_cats text group_name env fs).1 ∧
      (∃ m, Effect.print m ∈ (backup_cats text group_name env fs).1 ∧
        m.isErrorMsg = true) ∧
      (backup_cats text group_name env fs).2 = fs) ∧
    (netOkB env = true → env.writeOk = false →
      Effect.print Msg.saveJsonError ∈ (backup_cats text group_name env fs).1 ∧
      (backup_cats text group_name env fs).1.countP Effect.isFileWrite = 0 ∧
      Effect.print Msg.successDone ∈ (backup_cats text group_name env fs).1 ∧
      (backup_cats text group_name env fs).2 = fs) := by
  rw [backup_cats_fst, backup_cats_snd]
  constructor
  · intro hnet
    refine ⟨runTrace_no_success_of_net_fail text group_name env hnet,
      runTrace_error_of_net_fail text group_name env hnet, ?_⟩
    unfold runFS
    simp [runOkB, hnet]
  · intro hnet hw
    have hsub : (folderOkB env = true ∧ imageOkB env = true) ∧
        uploadOkB env = true := by
      simpa [netOkB] using hnet
    have h1 := hsub.1.1
    have h2 := hsub.1.2
    have hup := hsub.2
    refine ⟨?_, ?_, ?_, ?_⟩
    · unfold runTrace saveTraceSpec
      rw [if_neg (by simp [h1]), if_neg (by simp [h2]),
        if_neg (by simp [hup]), if_neg (by simp [hw])]
      simp
    · unfold runTrace saveTraceSpec
      rw [if_neg (by simp [h1]), if_neg (by simp [h2]),
        if_neg (by simp [hup]), if_neg (by simp [hw])]
      simp [List.countP_append, imageTrace_count_write,
        uploadTrace_count_write, List.countP_cons, Effect.isFileWrite]
    · unfold runTrace saveTraceSpec
      rw [if_neg (by simp [h1]), if_neg (by simp [h2]),
        if_neg (by simp [hup]), if_neg (by simp [hw])]
      simp
    · unfold runFS
      simp [runOkB, hw]

set_option maxRecDepth 100000 in
/-- Witness for C6 (amended): a run whose JSON write fails. -/
theorem failure_logged_and_halts_witness :
    Effect.print Msg.saveJsonError ∈
      (backup_cats "cat" "grp" envSaveFails []).1 ∧
    (backup_cats "cat" "grp" envSaveFails []).1.countP
      Effect.isFileWrite = 0 ∧
    Effect.print Msg.successDone ∈
      (backup_cats "cat" "grp" envSaveFails []).1 ∧
    (backup_cats "cat" "grp" envSaveFails []).2 = [] :=
  (failure_logged_and_halts "cat" "grp" envSaveFails []).2 (by decide)
    (by decide)

set_option maxRecDepth 100000 in
/-- C6 counterexample: when the JSON write fails, its failure is caught
and logged, yet the success report is printed afterwards in the same run —
so a caught failure is followed by a success report, refuting the claim. -/
theorem save_failure_then_success_report :
    netOkB envSaveFails = true ∧ envSaveFails.writeOk = false ∧
    Effect.print Msg.saveJsonError ∈
      (backup_cats "cat" "grp" envSaveFails []).1 ∧
    Effect.print Msg.successDone ∈
      (backup_cats "cat" "grp" envSaveFails []).1 ∧
    List.indexOf (Effect.print Msg.saveJsonError)
        (backup_cats "cat" "grp" envSaveFails []).1 <
      List.indexOf (Effect.print Msg.successDone)
        (backup_cats "cat" "grp" envSaveFails []).1 :=
  ⟨by decide, by decide, by decide, by decide, by decide⟩

theorem saveTraceSpec_elems (d : BackupData) (f : String) (env : Env) :
    ∀ e ∈ saveTraceSpec d f env,
      e = Effect.fileWrite f (serialize d) ∨ ∃ m, e = Effect.print m := by
  intro e he
  unfold saveTraceSpec at he
  by_cases hw : env.writeOk
  · rw [if_pos hw] at he
    rcases (by simpa using he : _ ∨ _) with h | h
    · exact Or.inl h
    · exact Or.inr ⟨_, h⟩
  · rw [if_neg hw] at he
    exact Or.inr ⟨_, by simpa using he⟩

theorem runTrace_elems (t g : String) (env : Env) :
    ∀ e ∈ runTrace t g env,
      e = Effect.netPutFolder (folderUrl g) ∨
      e = Effect.netGetImage (imageUrl t) ∨
      e = Effect.netGetUploadUrl (uploadUrlOf g t) ∨
      (∃ h b, e = Effect.netPutBytes h b) ∨
      e = Effect.netGetInfo (infoUrlOf g t) ∨
      e = Effect.fileWrite backup_info_filename
            (serialize (expectedRecord t g env)) ∨
      (∃ m, e = Effect.print m) := by
  intro e he
  unfold runTrace at he
  by_cases h1 : folderOkB env
  · rw [if_neg (by simp [h1])] at he
    by_cases h2 : imageOkB env
    · by_cases h3 : uploadOkB env
      · rw [if_neg (by simp [h2]), if_neg (by simp [h3])] at he
        simp only [List.mem_append, List.mem_cons, List.not_mem_nil, or_false,
          or_assoc] at he
        rcases he with he | he | he | he | he | he | he | he | he | he
        · exact Or.inr (Or.inr (Or.inr (Or.inr (Or.inr (Or.inr ⟨_, he⟩)))))
        · exact Or.inl he
        · exact Or.inr (Or.inr (Or.inr (Or.inr (Or.inr (Or.inr ⟨_, he⟩)))))
        · exact Or.inr (Or.inr (Or.inr (Or.inr (Or.inr (Or.inr ⟨_, he⟩)))))
        · rcases imageTrace_elems t env e he with h | ⟨m, h⟩
          · exact Or.inr (Or.inl h)
          · exact Or.inr (Or.inr (Or.inr (Or.inr (Or.inr (Or.inr ⟨_, h⟩)))))
        · exact Or.inr (Or.inr (Or.inr (Or.inr (Or.inr (Or.inr ⟨_, he⟩)))))
        · rcases uploadTrace_elems g t (envContent env) env e he with
            h | ⟨hr, b, h⟩ | h | ⟨m, h⟩
          · exact Or.inr (Or.inr (Or.inl h))
          · exact Or.inr (Or.inr (Or.inr (Or.inl ⟨hr, b, h⟩)))
          · exact Or.inr (Or.inr (Or.inr (Or.inr (Or.inl h))))
          · exact Or.inr (Or.inr (Or.inr (Or.inr (Or.inr (Or.inr ⟨_, h⟩)))))
        · rcases saveTraceSpec_elems (expectedRecord t g env)
              backup_info_filename env e he with h | ⟨m, h⟩
          · exact Or.inr (Or.inr (Or.inr (Or.inr (Or.inr (Or.inl h)))))
          · exact Or.inr (Or.inr (Or.inr (Or.inr (Or.inr (Or.inr ⟨_, h⟩)))))
        · exact Or.inr (Or.inr (Or.inr (Or.inr (Or.inr (Or.inr ⟨_, he⟩)))))
        · exact Or.inr (Or.inr (Or.inr (Or.inr (Or.inr (Or.inr ⟨_, he⟩)))))
      · rw [if_neg (by simp [h2]), if_pos (by simpa using h3)] at he
        simp only [List.mem_append, List.mem_cons, List.not_mem_nil, or_false,
          or_assoc] at he
        rcases he with he | he | he | he | he | he | he | he
        · exact Or.inr (Or.inr (Or.inr (Or.inr (Or.inr (Or.inr ⟨_, he⟩)))))
        · exact Or.inl he
        · exact Or.inr (Or.inr (Or.inr (Or.inr (Or.inr (Or.inr ⟨_, he⟩)))))
        · exact Or.inr (Or.inr (Or.inr (Or.inr (Or.inr (Or.inr ⟨_, he⟩)))))
        · rcases imageTrace_elems t env e he with h | ⟨m, h⟩
          · exact Or.inr (Or.inl h)
          · exact Or.inr (Or.inr (Or.inr (Or.inr (Or.inr (Or.inr ⟨_, h⟩)))))
        · exact Or.inr (Or.inr (Or.inr (Or.inr (Or.inr (Or.inr ⟨_, he⟩)))))
        · rcases uploadTrace_elems g t (envContent env) env e he with
            h | ⟨hr, b, h⟩ | h | ⟨m, h⟩
          · exact Or.inr (Or.inr (Or.inl h))
          · exact Or.inr (Or.inr (Or.inr (Or.inl ⟨hr, b, h⟩)))
          · exact Or.inr (Or.inr (Or.inr (Or.inr (Or.inl h))))
          · exact Or.inr (Or.inr (Or.inr (Or.inr (Or.inr (Or.inr ⟨_, h⟩)))))
        · exact Or.inr (Or.inr (Or.inr (Or.inr (Or.inr (Or.inr ⟨_, he⟩)))))
    · rw [if_pos (by simpa using h2)] at he
      simp only [List.mem_append, List.mem_cons, List.not_mem_nil, or_false,
        or_assoc] at he
      rcases he with he | he | he | he | he | he
      · exact Or.inr (Or.inr (Or.inr (Or.inr (Or.inr (Or.inr ⟨_, he⟩)))))
      · exact Or.inl he
      · exact Or.inr (Or.inr (Or.inr (Or.inr (Or.inr (Or.inr ⟨_, he⟩)))))
      · exact Or.inr (Or.inr (Or.inr (Or.inr (Or.inr (Or.inr ⟨_, he⟩)))))
      · rcases imageTrace_elems t env e he with h | ⟨m, h⟩
        · exact Or.inr (Or.inl h)
        · exact Or.inr (Or.inr (Or.inr (Or.inr (Or.inr (Or.inr ⟨_, h⟩)))))
      · exact Or.inr (Or.inr (Or.inr (Or.inr (Or.inr (Or.inr ⟨_, he⟩)))))
  · rw [if_pos (by simpa using h1)] at he
    simp only [List.append_nil, List.mem_append, List.mem_cons,
      List.not_mem_nil, or_false, or_assoc] at he
    rcases he with he | he | he
    · exact Or.inr (Or.inr (Or.inr (Or.inr (Or.inr (Or.inr ⟨_, he⟩)))))
    · exact Or.inl he
    · exact Or.inr (Or.inr (Or.inr (Or.inr (Or.inr (Or.inr ⟨_, he⟩)))))

/-- C10: every write-URL request and every metadata query of a run
addresses the remote path built from the group folder name and the
caption text with ".jpg" appended, and any JSON record written holds
exactly the file entries whose `file_name` is the caption text followed
by ".jpg". -/
theorem remote_path_and_file_name (text group_name : String) (env : Env)
    (fs : FS) :
    (∀ u, Effect.netGetUploadUrl u ∈ (backup_cats text group_name env fs).1 →
        u = uploadUrlOf group_name text) ∧
    (∀ u, Effect.netGetInfo u ∈ (backup_cats text group_name env fs).1 →
        u = infoUrlOf group_name text) ∧
    (∀ n c, Effect.fileWrite n c ∈ (backup_cats text group_name env fs).1 →
        n = backup_info_filename ∧
        c = serialize (expectedRecord text group_name env) ∧
        (expectedRecord text group_name env).files.map
          FileInfoRec.file_name = [text ++ ".jpg"]) := by
  refine ⟨?_, ?_, ?_⟩
  · intro u hu
    rw [backup_cats_fst] at hu
    rcases runTrace_elems text group_name env _ hu with
      h | h | h | ⟨hr, b, h⟩ | h | h | ⟨m, h⟩
    · simp at h
    · simp at h
    · simpa using h
    · simp at h
    · simp at h
    · simp at h
    · simp at h
  · intro u hu
    rw [backup_cats_fst] at hu
    rcases runTrace_elems text group_name env _ hu with
      h | h | h | ⟨hr, b, h⟩ | h | h | ⟨m, h⟩
    · simp at h
    · simp at h
    · simp at h
    · simp at h
    · simpa using h
    · simp at h
    · simp at h
  · intro n c hmem
    rw [backup_cats_fst] at hmem
    rcases runTrace_elems text group_name env _ hmem with
      h | h | h | ⟨hr, b, h⟩ | h | h | ⟨m, h⟩
    · simp at h
    · simp at h
    · simp at h
    · simp at h
    · simp at h
    · simp only [Effect.fileWrite.injEq] at h
      exact ⟨h.1, h.2, rfl⟩
    · simp at h

set_option maxRecDepth 100000 in
/-- Witness for C10: the record written in a fully successful run names
the uploaded file as the caption followed by ".jpg". -/
theorem remote_path_and_file_name_witness :
    Effect.fileWrite backup_info_filename
        (serialize (expectedRecord "cat" "grp" envAllOk)) ∈
      (backup_cats "cat" "grp" envAllOk []).1 ∧
    (expectedRecord "cat" "grp" envAllOk).files.map FileInfoRec.file_name =
      ["cat" ++ ".jpg"] :=
  ⟨by decide,
   ((remote_path_and_file_name "cat" "grp" envAllOk []).2.2
       backup_info_filename
       (serialize (expectedRecord "cat" "grp" envAllOk)) (by decide)).2.2⟩
